import Mathlib

/-!
Verification of the intiface-central flutter bridge lifecycle layer
(`src/intiface-engine-flutter-bridge/src/api.rs` and `src/api/simple.rs`).

The development shallowly embeds the global state of the bridge (the
`RUN_STATUS` atomic flag, the `RUNTIME` slot, the `ENGINE_NOTIFIER`
once-cell, and the two tokio broadcast channels), the entry points
`run_engine`, `stop_engine`, `send`, `send_backend_server_message`, the
spawned orchestrator (the `tokio::join!` of the engine-run task, the
backdoor-relay task and the stop-watcher task), and the configuration
conversions between `ExposedUserConfig` / `ExposedUserDeviceConfig` and
the buttplug `UserConfigDefinition` / `UserDeviceConfigPair` types.

Rust panics are modelled as `none` results; fallible operations return
`Except`.  The external `IntifaceMessage` wire type is modelled as its
serialized form, and the external deserializer is a parameter of the
theorems that need it.
-/

namespace IntifaceBridge

/-- Wire-format control message (`intiface_engine::IntifaceMessage` is an
external collaborator; every value is self-describing serialized text). -/
structure IntifaceMessage where
  raw : String
deriving DecidableEq

/-- A tokio `broadcast::Sender` channel as observed by this bridge: the
number of live receivers and the ring buffer of queued messages. -/
structure Broadcast (α : Type) where
  receiverCount : Nat
  queue : List α
deriving DecidableEq

/-- Both channels are created with `broadcast::channel(255)`. -/
def broadcastCapacity : Nat := 255

/-- `Sender::send`: fails when there are no receivers; otherwise appends
to the ring buffer, dropping the oldest element on overflow. -/
def broadcastSend {α : Type} (b : Broadcast α) (msg : α) :
    Except Unit (Broadcast α) :=
  if b.receiverCount > 0 then
    .ok { b with queue :=
      if broadcastCapacity ≤ b.queue.length then b.queue.tail ++ [msg]
      else b.queue ++ [msg] }
  else
    .error ()

/-- `Sender::subscribe`: one more live receiver. -/
def broadcastSubscribe {α : Type} (b : Broadcast α) : Broadcast α :=
  { b with receiverCount := b.receiverCount + 1 }

/-- Dropping a receiver: one fewer live receiver. -/
def broadcastDropReceiver {α : Type} (b : Broadcast α) : Broadcast α :=
  { b with receiverCount := b.receiverCount - 1 }

/-- The process-wide global state of the bridge:
`RUN_STATUS`, the `RUNTIME` slot, the `ENGINE_NOTIFIER` once-cell, the
`ENGINE_BROADCASTER` and `BACKDOOR_INCOMING_BROADCASTER` channels.
`orchestratorPending` is model bookkeeping: it records whether a spawned
orchestrator task is still live (so that a natural-completion step can
only occur when one is). -/
structure BridgeState where
  run_status : Bool
  runtime : Option Unit
  engine_notifier : Option Unit
  engine_broadcaster : Broadcast IntifaceMessage
  backdoor_incoming_broadcaster : Broadcast String
  orchestratorPending : Bool
deriving DecidableEq

/-- The state at process start: flag clear, empty slots, fresh channels. -/
def initState : BridgeState :=
  { run_status := false
    runtime := none
    engine_notifier := none
    engine_broadcaster := ⟨0, []⟩
    backdoor_incoming_broadcaster := ⟨0, []⟩
    orchestratorPending := false }

/-- The two synchronous errors `run_engine` can return. -/
inductive RunError
  | alreadyRunning
  | runtimeAlreadyCreated
deriving DecidableEq

instance : DecidableEq (Except RunError Unit) := fun a b => by
  cases a with
  | ok x =>
    cases b with
    | ok y => cases x; cases y; exact isTrue rfl
    | error y => exact isFalse (fun h => by cases h)
  | error x =>
    cases b with
    | ok y => exact isFalse (fun h => by cases h)
    | error y =>
      cases x <;> cases y <;>
        first
          | exact isTrue rfl
          | exact isFalse (fun h => by cases h)

/-- `run_engine` (identical in `api.rs` lines 80-199 and
`api/simple.rs` lines 55-173 up to the orchestrator epilogue):

* if `RUN_STATUS` is set, return `Err("Server already running!")`;
* set `RUN_STATUS` to `true`;
* if the `RUNTIME` slot is occupied, return `Err("Runtime already created!")`
  (note: `RUN_STATUS` has already been stored at this point);
* create the runtime, set `ENGINE_NOTIFIER` if absent, subscribe to
  `BACKDOOR_INCOMING_BROADCASTER`, spawn the orchestrator, store the
  runtime, return `Ok(())`. -/
def run_engine (s : BridgeState) : Except RunError Unit × BridgeState :=
  if s.run_status then
    (.error .alreadyRunning, s)
  else
    let s₁ := { s with run_status := true }
    if s₁.runtime.isSome then
      (.error .runtimeAlreadyCreated, s₁)
    else
      let notifier := if s₁.engine_notifier.isNone then some () else s₁.engine_notifier
      let s₂ := { s₁ with
        engine_notifier := notifier
        backdoor_incoming_broadcaster :=
          broadcastSubscribe s₁.backdoor_incoming_broadcaster
        runtime := some ()
        orchestratorPending := true }
      (.ok (), s₂)

/-- The externally observable steps `stop_engine` performs, in order.
`closeOutboundSink` is in the alphabet of possible observations but is
never emitted by `stop_engine` (sink closure happens only inside the
orchestrator). -/
inductive StopAction
  | notifyWaiters
  | sleepGrace (ms : Nat)
  | takeRuntime
  | shutdownRuntime (timeoutSecs : Nat)
  | clearRunStatus
  | closeOutboundSink
deriving DecidableEq

/-- `stop_engine` (`api.rs` lines 210-228, `api/simple.rs` lines 184-209;
the two differ only in the grace-sleep duration, 1ms vs 500ms, passed
here as `graceMs`): fire the notifier if it exists, sleep the grace
interval, take the runtime out of the shared slot, shut it down with a
1-second timeout if it was present, and clear `RUN_STATUS`
unconditionally.  Returns the performed action sequence and the new
state. -/
def stop_engine (graceMs : Nat) (s : BridgeState) :
    List StopAction × BridgeState :=
  let acts₀ := if s.engine_notifier.isSome then [StopAction.notifyWaiters] else []
  let acts₁ := acts₀ ++ [StopAction.sleepGrace graceMs]
  let rt := s.runtime
  let acts₂ := acts₁ ++ [StopAction.takeRuntime] ++
    (if rt.isSome then [StopAction.shutdownRuntime 1] else [])
  (acts₂ ++ [StopAction.clearRunStatus],
    { s with runtime := none, run_status := false, orchestratorPending := false })

/-- Natural engine completion: the `tokio::join!` of the spawned orchestrator
finishes and its epilogue runs — `RUN_STATUS` is cleared, the task-owned
backdoor receiver is dropped.  The `RUNTIME` slot is *not* cleared (only
`stop_engine` takes the runtime out). -/
def engineCompletion (s : BridgeState) : BridgeState :=
  { s with
    run_status := false
    backdoor_incoming_broadcaster :=
      broadcastDropReceiver s.backdoor_incoming_broadcaster
    orchestratorPending := false }

/-! ### Call traces over the lifecycle API -/

/-- The lifecycle events a host can drive (or observe): a `run_engine`
call, a `stop_engine` call, and natural completion of the orchestrator. -/
inductive Event
  | start
  | stop
  | complete
deriving DecidableEq

/-- One lifecycle step (the grace duration does not affect state). -/
def stepState (s : BridgeState) : Event → BridgeState
  | .start => (run_engine s).2
  | .stop => (stop_engine 1 s).2
  | .complete => engineCompletion s

/-- Run a trace of events from a given state. -/
def execFrom (s : BridgeState) : List Event → BridgeState
  | [] => s
  | e :: tr => execFrom (stepState s e) tr

/-- Run a trace of events from the initial state. -/
def execState (tr : List Event) : BridgeState := execFrom initState tr

/-- A trace is valid when every `complete` event occurs while an
orchestrator is actually pending. -/
def validFrom (s : BridgeState) : List Event → Bool
  | [] => true
  | e :: tr =>
    (match e with
      | .complete => s.orchestratorPending
      | _ => true)
    && validFrom (stepState s e) tr

/-- The observable call history: each event paired with the synchronous
result the API returned for it (`run_engine` returns a `Result`; the
other two events return nothing). -/
def historyFrom (s : BridgeState) : List Event → List (Event × Option (Except RunError Unit))
  | [] => []
  | e :: tr =>
    (e, match e with
        | .start => some (run_engine s).1
        | _ => none) :: historyFrom (stepState s e) tr

/-- Spec-side predicate of claim C2, read off the observable history:
there is a prior `run_engine` call that returned `Ok` with no
`stop_engine` call and no natural completion after it. -/
def activeSuccess (h : List (Event × Option (Except RunError Unit))) : Bool :=
  h.foldl
    (fun flag er =>
      match er with
      | (.start, some (.ok _)) => true
      | (.start, _) => flag
      | (.stop, _) => false
      | (.complete, _) => false)
    false

/-- Whether a recorded `run_engine` result is the already-running error. -/
def isAlreadyRunningErr : Option (Except RunError Unit) → Bool
  | some (.error .alreadyRunning) => true
  | _ => false

/-- One step of the amended spec-side predicate: a `run_engine` call
that did not fail the already-running guard raises the flag (whatever it
returned afterwards); a `stop_engine` call or a natural completion
clears it. -/
def activeStartedStep (flag : Bool)
    (er : Event × Option (Except RunError Unit)) : Bool :=
  match er with
  | (.start, r) => if isAlreadyRunningErr r then flag else true
  | (.stop, _) => false
  | (.complete, _) => false

/-- Amended spec-side predicate: there is a prior `run_engine` call that
*passed the already-running guard* (returned `Ok` or the
runtime-already-created error) with no `stop_engine` call and no natural
completion after it. -/
def activeStarted (h : List (Event × Option (Except RunError Unit))) : Bool :=
  h.foldl activeStartedStep false

/-! ### `send` and `send_backend_server_message` -/

/-- The guarded publish in `send` (`api.rs` lines 203-207): publish the
deserialized message on `ENGINE_BROADCASTER` only when it has receivers;
with zero receivers nothing happens.  `none` models the `expect` panic
on a failed send. -/
def publishEngineMessage (s : BridgeState) (msg : IntifaceMessage) :
    Option BridgeState :=
  if s.engine_broadcaster.receiverCount > 0 then
    match broadcastSend s.engine_broadcaster msg with
    | .ok b => some { s with engine_broadcaster := b }
    | .error _ => none
  else
    some s

/-- `send(msg_json)` (`api.rs` lines 201-208): deserialize `msg_json`
into an `IntifaceMessage` — panicking (`none`) when deserialization
fails — then publish it if the broadcaster has receivers.  The external
serde deserializer is the parameter `parse`. -/
def send (parse : String → Option IntifaceMessage) (s : BridgeState)
    (msg_json : String) : Option BridgeState :=
  match parse msg_json with
  | none => none
  | some msg => publishEngineMessage s msg

/-- `send_backend_server_message(msg)` (`api.rs` lines 230-236): publish
raw text on `BACKDOOR_INCOMING_BROADCASTER` only when it has receivers;
with zero receivers nothing happens.  `none` models the `expect` panic
on a failed send. -/
def send_backend_server_message (s : BridgeState) (msg : String) :
    Option BridgeState :=
  if s.backdoor_incoming_broadcaster.receiverCount > 0 then
    match broadcastSend s.backdoor_incoming_broadcaster msg with
    | .ok b => some { s with backdoor_incoming_broadcaster := b }
    | .error _ => none
  else
    some s

/-! ### The backdoor-relay task -/

/-- A tokio broadcast `RecvError`, the two ways `recv()` can fail:
`Closed` (every sender dropped — unreachable in practice here, since
`BACKDOOR_INCOMING_BROADCASTER` is a static sender that is never
dropped) and `Lagged` (the receiver fell more than the channel capacity,
255, behind and `skipped` messages were dropped — reachable). -/
inductive RecvErrorKind
  | closed
  | lagged (skipped : Nat)
deriving DecidableEq

/-- One arrival at the three-way `select!` of the relay loop: a message
(`Ok`) or a recv error (`Err`: closure or receiver lag) on the inbound
broadcast receiver, a message (or end) of the event stream of the
backdoor server, or the cancellation notifier firing. -/
inductive RelayEvent
  | inbound (msg : String)
  | inboundErr (e : RecvErrorKind)
  | streamMsg (msg : String)
  | streamEnd
  | cancelNotified
deriving DecidableEq

/-- Why the relay loop exited. -/
inductive ExitReason
  | recvError (e : RecvErrorKind)
  | streamEnded
  | cancelled
deriving DecidableEq

/-- What the relay loop does, as observed at the Outbound Sink:
`deliverResponse r` is the `sink.add` performed by the detached task
spawned for an inbound command (`r` is the response computed by `parse_message`);
`deliverEvent m` is the direct `sink.add` of a backdoor event-stream
message; `exitLoop` is the `break`/return out of the loop. -/
inductive RelayAction
  | deliverResponse (resp : String)
  | deliverEvent (msg : String)
  | exitLoop (r : ExitReason)
deriving DecidableEq

/-- The relay loop (`api.rs` lines 146-169): on an inbound command spawn
a detached task that delivers `parse_message msg` to the sink; on *any*
recv error on the inbound receiver (`Err(_) => break` — closure or
receiver lag alike), on event-stream end, or on cancellation, break out;
on an event-stream message deliver it directly.  `parseMessage` is the
external `BackdoorServer::parse_message`, which returns a response for
every input (error-shaped for malformed input). -/
def relayLoop (parseMessage : String → String) :
    List RelayEvent → List RelayAction
  | [] => []
  | .inbound m :: rest =>
    .deliverResponse (parseMessage m) :: relayLoop parseMessage rest
  | .inboundErr e :: _ => [.exitLoop (.recvError e)]
  | .streamMsg m :: rest => .deliverEvent m :: relayLoop parseMessage rest
  | .streamEnd :: _ => [.exitLoop .streamEnded]
  | .cancelNotified :: _ => [.exitLoop .cancelled]

/-- The operations of the backdoor surface the relay task can invoke. -/
inductive SurfaceCall
  | backdoorServerCall
  | eventStreamCall
  | parseMessageCall (msg : String)
deriving DecidableEq

/-- Which arm won in the startup `select!` of the relay task: the
frontend-ready one-shot, or the cancellation notifier. -/
inductive StartupOutcome
  | frontendReady
  | cancelledFirst
deriving DecidableEq

/-- The `parse_message` invocations the relay loop makes for a given
event sequence (one per inbound command processed before the loop
exits). -/
def loopSurfaceCalls : List RelayEvent → List SurfaceCall
  | [] => []
  | .inbound m :: rest => .parseMessageCall m :: loopSurfaceCalls rest
  | .inboundErr _ :: _ => []
  | .streamMsg _ :: rest => loopSurfaceCalls rest
  | .streamEnd :: _ => []
  | .cancelNotified :: _ => []

/-- The whole backdoor-relay task (`api.rs` lines 125-171): first
`select!` between the frontend-ready waiter and the notifier — if
cancellation wins, return at once; then call
`engine.backdoor_server()` — if it is `None`, return at once; otherwise
take its event stream and run the relay loop.  Returns the backdoor
surface operations invoked and the sink-facing actions performed.
`surfacePresent` is whether `backdoor_server()` returned `Some`. -/
def relayTask (parseMessage : String → String) (outcome : StartupOutcome)
    (surfacePresent : Bool) (events : List RelayEvent) :
    List SurfaceCall × List RelayAction :=
  match outcome with
  | .cancelledFirst => ([], [])
  | .frontendReady =>
    if surfacePresent then
      (SurfaceCall.backdoorServerCall :: SurfaceCall.eventStreamCall ::
        loopSurfaceCalls events,
        relayLoop parseMessage events)
    else
      ([SurfaceCall.backdoorServerCall], [])

/-! ### The orchestrator (`tokio::join!` of the three tasks) -/

/-- Observable actions of the orchestrated run: sink deliveries, sink
closure, firing the notifier, the `engine.stop()` call of the
stop-watcher, and the `RUN_STATUS.store(false)` of the epilogue. -/
inductive OrchAction
  | sinkAdd (m : String)
  | sinkClose
  | notifyAllWaiters
  | engineStopCall
  | storeRunStatusFalse
deriving DecidableEq

/-- The engine-run task (`api.rs` lines 174-181): `engine.run` delivers
some messages through the frontend to the sink (`outs`, opaque here),
then — success or failure — the task fires the notifier. -/
def engineTaskTrace (outs : List String) : List OrchAction :=
  outs.map OrchAction.sinkAdd ++ [OrchAction.notifyAllWaiters]

/-- The stop-watcher task (`api.rs` lines 184-189): wait on the
notifier, then call `engine.stop()` and exit. -/
def watcherTaskTrace : List OrchAction := [OrchAction.engineStopCall]

/-- A relay action seen at the sink, in orchestrator vocabulary: each
delivery is a `sink.add`; the loop exit itself performs no sink action. -/
def orchActionOfRelayAction : RelayAction → Option OrchAction
  | .deliverResponse r => some (OrchAction.sinkAdd r)
  | .deliverEvent m => some (OrchAction.sinkAdd m)
  | .exitLoop _ => none

/-- The sink-facing actions of the backdoor-relay task. -/
def relayTaskTrace (parseMessage : String → String) (outcome : StartupOutcome)
    (surfacePresent : Bool) (events : List RelayEvent) : List OrchAction :=
  ((relayTask parseMessage outcome surfacePresent events).2).filterMap
    orchActionOfRelayAction

/-- `l` is an interleaving of `xs` and `ys`. -/
inductive Interleave : List OrchAction → List OrchAction → List OrchAction → Prop
  | nil : Interleave [] [] []
  | left {x xs ys zs} : Interleave xs ys zs → Interleave (x :: xs) ys (x :: zs)
  | right {y xs ys zs} : Interleave xs ys zs → Interleave xs (y :: ys) (y :: zs)

/-- `l` is an interleaving of the three task traces: `tokio::join!` runs
all three concurrently on one thread pool and finishes when all three
have finished. -/
def Interleave3 (as bs cs l : List OrchAction) : Prop :=
  ∃ m, Interleave as bs m ∧ Interleave m cs l

/-- The orchestrated run in `api.rs` (lines 120-196): some interleaving
`body` of the three complete task traces, then the epilogue
`RUN_STATUS.store(false); sink_clone.close()`. -/
def orchTrace_api (body : List OrchAction) : List OrchAction :=
  body ++ [OrchAction.storeRunStatusFalse, OrchAction.sinkClose]

/-- The orchestrated run in `api/simple.rs` (lines 95-170): same join,
but the epilogue only stores `RUN_STATUS` — it never closes the sink. -/
def orchTrace_simple (body : List OrchAction) : List OrchAction :=
  body ++ [OrchAction.storeRunStatusFalse]

/-! ### Configuration data-shape conversions -/

/-- `UserConfigDeviceIdentifier` (mirrored in both bridge files). -/
structure UserConfigDeviceIdentifier where
  address : String
  protocol : String
  identifier : Option String
deriving DecidableEq

/-- The websocket specifier of the buttplug crate (named
`WebsocketDeviceIdentifier` in `api.rs`, `WebsocketSpecifier` in
`api/simple.rs`; both are a list of names). -/
structure WebsocketSpecifier where
  names : List String
deriving DecidableEq

/-- `ExposedWebsocketSpecifier`. -/
structure ExposedWebsocketSpecifier where
  names : List String
deriving DecidableEq

/-- `ExposedUserDeviceSpecifiers`. -/
structure ExposedUserDeviceSpecifiers where
  websocket : Option ExposedWebsocketSpecifier
deriving DecidableEq

/-- `ProtocolDefinition`, restricted to the field the bridge touches
(`set_websocket`); `default` has no websocket specifier. -/
structure ProtocolDefinition where
  websocket : Option WebsocketSpecifier
deriving DecidableEq

/-- `UserDeviceConfig`, restricted to the fields the bridge touches;
`default` has every field unset. -/
structure UserDeviceConfig where
  display_name : Option String
  allow : Option Bool
  deny : Option Bool
  index : Option Nat
deriving DecidableEq

/-- `UserDeviceConfigPair::new(identifier, config)`. -/
structure UserDeviceConfigPair where
  identifier : UserConfigDeviceIdentifier
  config : UserDeviceConfig
deriving DecidableEq

/-- `ExposedUserDeviceConfig`. -/
structure ExposedUserDeviceConfig where
  identifier : UserConfigDeviceIdentifier
  name : String
  display_name : Option String
  allow : Option Bool
  deny : Option Bool
  reserved_index : Option Nat
deriving DecidableEq

/-- `ExposedUserConfig` (the specifier map crosses the bridge as a list
of pairs). -/
structure ExposedUserConfig where
  specifiers : List (String × ExposedUserDeviceSpecifiers)
  configurations : List ExposedUserDeviceConfig
deriving DecidableEq

/-- `UserConfigDefinition`, restricted to the fields the bridge touches
(`set_specifiers`, `set_user_device_configs`); `default` has both unset.
The `HashMap<String, ProtocolDefinition>` is modelled as an association
list with replace-on-insert. -/
structure UserConfigDefinition where
  specifiers : Option (List (String × ProtocolDefinition))
  user_device_configs : Option (List UserDeviceConfigPair)
deriving DecidableEq

/-- `HashMap::insert`: replace an existing binding for the key, or
append a new one. -/
def insertAssoc (m : List (String × ProtocolDefinition)) (k : String)
    (v : ProtocolDefinition) : List (String × ProtocolDefinition) :=
  if m.any (fun p => p.1 = k) then
    m.map (fun p => if p.1 = k then (k, v) else p)
  else
    m ++ [(k, v)]

/-- `Into<WebsocketSpecifier> for ExposedWebsocketSpecifier`
(`WebsocketSpecifier::new(&self.names)`). -/
def intoWebsocketSpecifier (s : ExposedWebsocketSpecifier) : WebsocketSpecifier :=
  ⟨s.names⟩

/-- `Into<UserDeviceConfigPair> for ExposedUserDeviceConfig`
(`api.rs` lines 327-336, identical in `api/simple.rs`): build a default
`UserDeviceConfig`, set its four fields, and pair it with the
identifier.  The `name` field is not transferred. -/
def intoUserDeviceConfigPair (c : ExposedUserDeviceConfig) : UserDeviceConfigPair :=
  { identifier := c.identifier
    config :=
      { display_name := c.display_name
        allow := c.allow
        deny := c.deny
        index := c.reserved_index } }

/-- `From<&UserDeviceConfigPair> for ExposedUserDeviceConfig`
(`api.rs` lines 314-325, identical in `api/simple.rs`): copy the
identifier and the four config fields; `name` is set to the empty
string. -/
def exposedUserDeviceConfigOfPair (p : UserDeviceConfigPair) : ExposedUserDeviceConfig :=
  { identifier := p.identifier
    name := ""
    display_name := p.config.display_name
    allow := p.config.allow
    deny := p.config.deny
    reserved_index := p.config.index }

/-- `Into<UserConfigDefinition> for ExposedUserConfig` as written in
`api.rs` (lines 275-303): convert the configurations, build the
specifier map — whose population loop is *commented out* in this file,
so the map is always empty — always set `specifiers` to the (empty)
map, and set `user_device_configs` only when nonempty. -/
def intoUserConfigDefinition_api (c : ExposedUserConfig) : UserConfigDefinition :=
  let configs := c.configurations.map intoUserDeviceConfigPair
  let specifier_map : List (String × ProtocolDefinition) := []
  { specifiers := some specifier_map
    user_device_configs := if configs.isEmpty then none else some configs }

/-- `Into<UserConfigDefinition> for ExposedUserConfig` as written in
`api/simple.rs` (lines 256-282): same shape, but the specifier map is
populated — every entry whose websocket specifier is present and has a
nonempty name list inserts a `ProtocolDefinition` with that websocket
specifier.  `specifierInsertStep` is the body of the `for_each`. -/
def specifierInsertStep (m : List (String × ProtocolDefinition))
    (ps : String × ExposedUserDeviceSpecifiers) :
    List (String × ProtocolDefinition) :=
  match ps.2.websocket with
  | some ws =>
    if ws.names.length > 0 then
      insertAssoc m ps.1 { websocket := some (intoWebsocketSpecifier ws) }
    else m
  | none => m

def intoUserConfigDefinition_simple (c : ExposedUserConfig) : UserConfigDefinition :=
  let configs := c.configurations.map intoUserDeviceConfigPair
  let specifier_map := c.specifiers.foldl specifierInsertStep []
  { specifiers := some specifier_map
    user_device_configs := if configs.isEmpty then none else some configs }

/-- An `ExposedUserConfig` specifier entry that contributes nothing to
the specifier map in `api/simple.rs`: no websocket specifier, or an
empty name list. -/
def ineffectiveSpecifier (s : ExposedUserDeviceSpecifiers) : Bool :=
  match s.websocket with
  | some ws => decide (ws.names.length = 0)
  | none => true

/-- The relay-loop arrivals that make the loop exit: an inbound-receiver
recv error (closure or lag), event-stream end, and cancellation. -/
def isTerminator : RelayEvent → Bool
  | .inboundErr _ => true
  | .streamEnd => true
  | .cancelNotified => true
  | .inbound _ => false
  | .streamMsg _ => false

/-! ### Concrete probe values used by witnesses and counterexamples -/

/-- A concrete deserializer: only the text `"ok"` parses. -/
def probeParse (t : String) : Option IntifaceMessage :=
  if t = "ok" then some ⟨t⟩ else none

/-- A concrete backdoor `parse_message`: maps the malformed command
`"bad"` to an error-shaped response and echoes everything else. -/
def probeParseMessage (t : String) : String :=
  if t = "bad" then "parse-error" else t

/-- Concrete well-formedness test matching `probeParseMessage`. -/
def probeWellFormed (t : String) : Bool := !(t == "bad")

/-- Concrete error-shape test matching `probeParseMessage`. -/
def probeErrorShaped (t : String) : Bool := t == "parse-error"

/-- A config with a live websocket specifier entry (populated by the
`api/simple.rs` conversion, dropped by the `api.rs` one). -/
def probeSpecifierConfig : ExposedUserConfig :=
  { specifiers := [("probe-protocol", ⟨some ⟨["device-name"]⟩⟩)]
    configurations := [] }

/-- A config whose only specifier entry contributes nothing to the map. -/
def probeIneffectiveConfig : ExposedUserConfig :=
  { specifiers := [("probe-protocol", ⟨none⟩)]
    configurations := [] }

/-! ## Helper lemmas -/

/-- A `run_engine` call returns the already-running error exactly when
the `RUN_STATUS` flag is set. -/
theorem run_engine_alreadyRunning_iff (s : BridgeState) :
    (run_engine s).1 = Except.error RunError.alreadyRunning ↔
      s.run_status = true := by
  by_cases h : s.run_status
  · simp [run_engine, h]
  · by_cases h₂ : s.runtime.isSome <;> simp [run_engine, h, h₂]

/-- The `RUN_STATUS` flag after a trace equals the amended spec fold
over the observable history of that trace. -/
theorem execFrom_run_status (tr : List Event) :
    ∀ s : BridgeState,
      (execFrom s tr).run_status =
        (historyFrom s tr).foldl activeStartedStep s.run_status := by
  induction tr with
  | nil => intro s; rfl
  | cons e tr ih =>
    intro s
    have hstep : (stepState s e).run_status =
        activeStartedStep s.run_status
          (e, match e with
              | .start => some (run_engine s).1
              | _ => none) := by
      cases e with
      | start =>
        by_cases h : s.run_status
        · simp [stepState, run_engine, h, activeStartedStep, isAlreadyRunningErr]
        · by_cases h₂ : s.runtime.isSome <;>
            simp [stepState, run_engine, h, h₂, activeStartedStep,
              isAlreadyRunningErr]
      | stop => simp [stepState, stop_engine, activeStartedStep]
      | complete => simp [stepState, engineCompletion, activeStartedStep]
    calc (execFrom s (e :: tr)).run_status
        = (execFrom (stepState s e) tr).run_status := rfl
      _ = (historyFrom (stepState s e) tr).foldl activeStartedStep
            (stepState s e).run_status := ih (stepState s e)
      _ = (historyFrom s (e :: tr)).foldl activeStartedStep s.run_status := by
            rw [hstep]; rfl

/-! ## Claim theorems -/

/-- Claim C1, counterexample: after a successful start followed by
natural engine completion, the `RUNTIME` slot is still occupied while
`RUN_STATUS` is clear; the next `run_engine` call returns an error, yet
it mutates state — `RUN_STATUS` is set before the runtime guard fires,
so the post-state differs from the pre-state. -/
theorem run_engine_failure_mutates_state :
    (run_engine (execState [Event.start, Event.complete])).1 =
        Except.error RunError.runtimeAlreadyCreated
      ∧ (run_engine (execState [Event.start, Event.complete])).2 ≠
          execState [Event.start, Event.complete] := by
  decide

/-- Claim C1, amended: a `run_engine` call while `RUN_STATUS` is set
fails with the already-running error and mutates nothing; a call while
`RUN_STATUS` is clear but the `RUNTIME` slot is occupied fails with the
runtime-already-created error having set `RUN_STATUS` to `true`, leaving
the runtime slot, the notifier slot and both broadcast buses as they
were. -/
theorem run_engine_failure_effects (s : BridgeState) :
    (s.run_status = true → run_engine s = (.error .alreadyRunning, s))
    ∧ (s.run_status = false → s.runtime.isSome = true →
        run_engine s =
          (.error .runtimeAlreadyCreated, { s with run_status := true })) := by
  constructor
  · intro h
    simp [run_engine, h]
  · intro h h₂
    simp [run_engine, h, h₂]

/-- Witness for `run_engine_failure_effects`, at the reachable states
after `[start]` (flag set) and after `[start, complete]` (flag clear,
runtime stored). -/
theorem run_engine_failure_effects_witness :
    run_engine (execState [Event.start]) =
        (.error .alreadyRunning, execState [Event.start])
    ∧ run_engine (execState [Event.start, Event.complete]) =
        (.error .runtimeAlreadyCreated,
          { execState [Event.start, Event.complete] with run_status := true }) :=
  ⟨(run_engine_failure_effects (execState [Event.start])).1 (by decide),
    (run_engine_failure_effects (execState [Event.start, Event.complete])).2
      (by decide) (by decide)⟩

/-- Claim C2, counterexample: on the valid trace start, natural
completion, start, the second start fails with the runtime-already-created
error but raises `RUN_STATUS`; a third start therefore fails with the
already-running error even though no successful start is active — the
claimed iff is violated. -/
theorem alreadyRunning_iff_success_counterexample :
    validFrom initState [Event.start, Event.complete, Event.start] = true
    ∧ ¬(((run_engine
            (execState [Event.start, Event.complete, Event.start])).1 =
          Except.error RunError.alreadyRunning)
        ↔ activeSuccess
            (historyFrom initState
              [Event.start, Event.complete, Event.start]) = true) := by
  decide

/-- Claim C2, amended: for every sequence of calls, `run_engine` fails
with the already-running error iff a prior `run_engine` call passed the
already-running guard — returning either success or the
runtime-already-created error — and no `stop_engine` call and no
natural engine completion has occurred since. -/
theorem alreadyRunning_iff_guard_passed (tr : List Event) :
    ((run_engine (execState tr)).1 = Except.error RunError.alreadyRunning)
      ↔ activeStarted (historyFrom initState tr) = true := by
  have h : (execState tr).run_status =
      activeStarted (historyFrom initState tr) := by
    have h₀ := execFrom_run_status tr initState
    simpa [execState, activeStarted, initState] using h₀
  rw [run_engine_alreadyRunning_iff, h]

/-- Witness for `alreadyRunning_iff_guard_passed` on the one-start
trace. -/
theorem alreadyRunning_iff_guard_passed_witness :
    ((run_engine (execState [Event.start])).1 =
        Except.error RunError.alreadyRunning)
      ↔ activeStarted (historyFrom initState [Event.start]) = true :=
  alreadyRunning_iff_guard_passed [Event.start]

/-- Claim C4: `stop_engine` performs exactly — notifier fire iff a
notifier exists, the grace sleep, taking the runtime out of the slot,
runtime shutdown (with its 1-second bound) iff a runtime was present,
and the unconditional `RUN_STATUS` clear; the post-state has the slot
emptied and the flag cleared with everything else untouched; and when
not running (flag clear, no runtime, no pending orchestrator) the state
is completely unchanged. -/
theorem stop_engine_sequence (graceMs : Nat) (s : BridgeState) :
    (stop_engine graceMs s).1 =
      (if s.engine_notifier.isSome then [StopAction.notifyWaiters] else [])
        ++ [StopAction.sleepGrace graceMs, StopAction.takeRuntime]
        ++ (if s.runtime.isSome then [StopAction.shutdownRuntime 1] else [])
        ++ [StopAction.clearRunStatus]
    ∧ (stop_engine graceMs s).2 =
        { s with
          runtime := none
          run_status := false
          orchestratorPending := false }
    ∧ (s.run_status = false → s.runtime = none →
        s.orchestratorPending = false → (stop_engine graceMs s).2 = s) := by
  refine ⟨?_, rfl, ?_⟩
  · cases hn : s.engine_notifier <;> cases hr : s.runtime <;>
      simp [stop_engine, hn, hr]
  · intro h₁ h₂ h₃
    cases s
    simp_all [stop_engine]

/-- Witness for `stop_engine_sequence` at the initial (not running)
state: the call changes nothing. -/
theorem stop_engine_sequence_witness :
    (stop_engine 1 initState).2 = initState :=
  (stop_engine_sequence 1 initState).2.2 rfl rfl rfl

/-- Claim C5: if cancellation wins the startup select, the relay task
invokes no backdoor-surface operation at all and performs no action; if
the frontend-ready signal wins but the engine reports no backdoor
server, the relay makes exactly that one `backdoor_server()` call and
exits immediately, processing nothing. -/
theorem relay_cancellation_and_absent_surface
    (parseMessage : String → String) (surfacePresent : Bool)
    (events : List RelayEvent) :
    relayTask parseMessage StartupOutcome.cancelledFirst surfacePresent
        events = ([], [])
    ∧ relayTask parseMessage StartupOutcome.frontendReady false events =
        ([SurfaceCall.backdoorServerCall], []) := by
  exact ⟨rfl, by simp [relayTask]⟩

/-- Claim C6: publishing on either broadcast bus with zero live
receivers is a no-op — the guarded send is skipped, no panic occurs, and
the whole bridge state is returned unchanged. -/
theorem publish_no_subscribers_noop (s : BridgeState)
    (msg : IntifaceMessage) (text : String)
    (h₁ : s.engine_broadcaster.receiverCount = 0)
    (h₂ : s.backdoor_incoming_broadcaster.receiverCount = 0) :
    publishEngineMessage s msg = some s
    ∧ send_backend_server_message s text = some s := by
  constructor
  · simp [publishEngineMessage, h₁]
  · simp [send_backend_server_message, h₂]

/-- Witness for `publish_no_subscribers_noop` at the initial state,
whose buses have zero receivers. -/
theorem publish_no_subscribers_noop_witness :
    publishEngineMessage initState ⟨"probe"⟩ = some initState
    ∧ send_backend_server_message initState "probe" = some initState :=
  publish_no_subscribers_noop initState ⟨"probe"⟩ "probe" rfl rfl

/-- The guarded publish on `ENGINE_BROADCASTER` never panics: with zero
receivers it skips the send, and with receivers present the send
succeeds. -/
theorem publishEngineMessage_isSome (s : BridgeState)
    (msg : IntifaceMessage) : (publishEngineMessage s msg).isSome = true := by
  by_cases h : s.engine_broadcaster.receiverCount > 0
  · simp [publishEngineMessage, broadcastSend, h]
  · simp [publishEngineMessage, h]

/-- Claim C7: `send` panics exactly when its argument fails to
deserialize into an `IntifaceMessage`; whenever deserialization
succeeds, `send` returns normally — whatever the subscriber count of the
outbound broadcaster. -/
theorem send_fails_iff_unparseable
    (parse : String → Option IntifaceMessage) (s : BridgeState)
    (msg_json : String) :
    (send parse s msg_json = none ↔ parse msg_json = none)
    ∧ (send parse s msg_json).isSome = (parse msg_json).isSome := by
  cases hp : parse msg_json with
  | none => simp [send, hp]
  | some msg =>
    have h := publishEngineMessage_isSome s msg
    constructor
    · simp only [send, hp]
      constructor
      · intro hn
        rw [hn] at h
        simp at h
      · intro hn
        exact absurd hn (by simp)
    · simp [send, hp, h]

/-- Witness for `send_fails_iff_unparseable` on a concrete deserializer,
with one unparseable and one parseable message. -/
theorem send_fails_iff_unparseable_witness :
    (send probeParse initState "bad" = none ↔ probeParse "bad" = none)
    ∧ (send probeParse initState "ok").isSome = (probeParse "ok").isSome :=
  ⟨(send_fails_iff_unparseable probeParse initState "bad").1,
    (send_fails_iff_unparseable probeParse initState "ok").2⟩

/-- Claim C10: converting an `ExposedUserDeviceConfig` into a
`UserDeviceConfigPair` and back preserves the identifier, display name,
allow, deny and reserved index, and always resets `name` to the empty
string. -/
theorem user_device_config_round_trip (c : ExposedUserDeviceConfig) :
    exposedUserDeviceConfigOfPair (intoUserDeviceConfigPair c) =
      { c with name := "" } :=
  rfl

/-! ## The backdoor relay: failure containment (C8) -/

/-- The relay loop distributes over appending, as long as the first
part contains no loop-exiting arrival. -/
theorem relayLoop_append_no_terminator (parseMessage : String → String)
    (evs₁ evs₂ : List RelayEvent)
    (h : evs₁.all (fun e => !isTerminator e) = true) :
    relayLoop parseMessage (evs₁ ++ evs₂) =
      relayLoop parseMessage evs₁ ++ relayLoop parseMessage evs₂ := by
  induction evs₁ with
  | nil => simp [relayLoop]
  | cons e rest ih =>
    simp only [List.all_cons, Bool.and_eq_true] at h
    obtain ⟨h₁, h₂⟩ := h
    cases e with
    | inbound m => simp [relayLoop, ih h₂]
    | streamMsg m => simp [relayLoop, ih h₂]
    | inboundErr e => simp [isTerminator] at h₁
    | streamEnd => simp [isTerminator] at h₁
    | cancelNotified => simp [isTerminator] at h₁

/-- The relay loop exits exactly when some arrival is a terminator:
inbound-bus closure, event-stream end, or cancellation. -/
theorem exitLoop_mem_relayLoop_iff (parseMessage : String → String) :
    ∀ evs : List RelayEvent,
      (∃ r, RelayAction.exitLoop r ∈ relayLoop parseMessage evs) ↔
        evs.any isTerminator = true := by
  intro evs
  induction evs with
  | nil => simp [relayLoop]
  | cons e rest ih =>
    cases e with
    | inbound m => simpa [relayLoop, isTerminator] using ih
    | streamMsg m => simpa [relayLoop, isTerminator] using ih
    | inboundErr e => simp [relayLoop, isTerminator]
    | streamEnd => simp [relayLoop, isTerminator]
    | cancelNotified => simp [relayLoop, isTerminator]

/-- Claim C8, amended: an inbound command that fails to parse is
contained to that message — the run decomposes so that exactly one
response (the error-shaped output of `parse_message`) is delivered for
it, the events before and after it are processed exactly as they would
be on their own, and the loop exits only on an inbound-receiver recv
error (closure or receiver lag), stream end, or cancellation.
`wellFormed`/`errorShaped` describe the external backdoor surface, whose
contract (spec: a malformed command surfaces as an error-shaped response)
is the hypothesis `hContract`. -/
theorem malformed_command_contained
    (parseMessage : String → String) (wellFormed errorShaped : String → Bool)
    (hContract : ∀ t, wellFormed t = false →
      errorShaped (parseMessage t) = true)
    (evs₁ evs₂ : List RelayEvent) (m : String)
    (hpre : evs₁.all (fun e => !isTerminator e) = true)
    (hm : wellFormed m = false) :
    relayLoop parseMessage (evs₁ ++ RelayEvent.inbound m :: evs₂) =
        relayLoop parseMessage evs₁ ++
          RelayAction.deliverResponse (parseMessage m) ::
            relayLoop parseMessage evs₂
    ∧ errorShaped (parseMessage m) = true
    ∧ (∀ evs : List RelayEvent,
        (∃ r, RelayAction.exitLoop r ∈ relayLoop parseMessage evs) ↔
          evs.any isTerminator = true) := by
  refine ⟨?_, hContract m hm, exitLoop_mem_relayLoop_iff parseMessage⟩
  rw [relayLoop_append_no_terminator parseMessage evs₁
    (RelayEvent.inbound m :: evs₂) hpre]
  rfl

/-- Claim C8, counterexample: the relay loop also exits when the
inbound receiver reports a lag error (`RecvError::Lagged`, returned once
the receiver falls more than the channel capacity of 255 messages
behind) — an exit cause that is neither bus closure, nor event-stream
end, nor cancellation, so the claimed exit enumeration is false of the
program. -/
theorem relay_exits_on_receiver_lag :
    relayLoop probeParseMessage
        [RelayEvent.inboundErr (RecvErrorKind.lagged 256)] =
      [RelayAction.exitLoop (ExitReason.recvError (RecvErrorKind.lagged 256))]
    ∧ ExitReason.recvError (RecvErrorKind.lagged 256) ≠
        ExitReason.recvError RecvErrorKind.closed
    ∧ ExitReason.recvError (RecvErrorKind.lagged 256) ≠ ExitReason.streamEnded
    ∧ ExitReason.recvError (RecvErrorKind.lagged 256) ≠ ExitReason.cancelled := by
  decide

/-- Witness for `malformed_command_contained`: the malformed command
`"bad"` between a stream message and the stream end. -/
theorem malformed_command_contained_witness :
    probeWellFormed "bad" = false
    ∧ relayLoop probeParseMessage
        ([RelayEvent.streamMsg "evt"] ++
          RelayEvent.inbound "bad" :: [RelayEvent.streamEnd]) =
        relayLoop probeParseMessage [RelayEvent.streamMsg "evt"] ++
          RelayAction.deliverResponse (probeParseMessage "bad") ::
            relayLoop probeParseMessage [RelayEvent.streamEnd] := by
  refine ⟨by decide, ?_⟩
  exact (malformed_command_contained probeParseMessage probeWellFormed
    probeErrorShaped
    (by
      intro t h
      simp [probeWellFormed] at h
      simp [probeParseMessage, probeErrorShaped, h])
    [RelayEvent.streamMsg "evt"] [RelayEvent.streamEnd] "bad"
    (by decide) (by decide)).1

/-! ## The two conversion files (C9) -/

/-- An ineffective specifier entry leaves the map unchanged. -/
theorem specifierInsertStep_ineffective
    (m : List (String × ProtocolDefinition))
    (ps : String × ExposedUserDeviceSpecifiers)
    (h : ineffectiveSpecifier ps.2 = true) :
    specifierInsertStep m ps = m := by
  unfold specifierInsertStep
  unfold ineffectiveSpecifier at h
  cases hw : ps.2.websocket with
  | none => rfl
  | some ws =>
    rw [hw] at h
    have hlen : ws.names.length = 0 := of_decide_eq_true h
    simp [hlen]

/-- Folding the specifier-insertion step over entries that contribute
nothing leaves the map unchanged. -/
theorem specifier_foldl_ineffective
    (l : List (String × ExposedUserDeviceSpecifiers)) :
    ∀ m, l.all (fun ps => ineffectiveSpecifier ps.2) = true →
      l.foldl specifierInsertStep m = m := by
  induction l with
  | nil => intro m _; rfl
  | cons p rest ih =>
    intro m h
    simp only [List.all_cons, Bool.and_eq_true] at h
    obtain ⟨h₁, h₂⟩ := h
    rw [List.foldl_cons, specifierInsertStep_ineffective m p h₁]
    exact ih m h₂

/-- `HashMap::insert` never empties the map. -/
theorem insertAssoc_ne_nil (m : List (String × ProtocolDefinition))
    (k : String) (v : ProtocolDefinition) : insertAssoc m k v ≠ [] := by
  cases m with
  | nil => simp [insertAssoc]
  | cons p rest =>
    unfold insertAssoc
    split <;> simp

/-- One specifier-insertion step never empties the map. -/
theorem specifierInsertStep_ne_nil (m : List (String × ProtocolDefinition))
    (ps : String × ExposedUserDeviceSpecifiers) (h : m ≠ []) :
    specifierInsertStep m ps ≠ [] := by
  cases hw : ps.2.websocket with
  | none => simpa [specifierInsertStep, hw] using h
  | some ws =>
    by_cases hl : ws.names.length > 0
    · simpa [specifierInsertStep, hw, hl] using
        insertAssoc_ne_nil m ps.1 ⟨some (intoWebsocketSpecifier ws)⟩
    · simpa [specifierInsertStep, hw, hl] using h

/-- Folding the specifier-insertion step never empties a nonempty map. -/
theorem specifier_foldl_ne_nil
    (l : List (String × ExposedUserDeviceSpecifiers)) :
    ∀ m, m ≠ [] → l.foldl specifierInsertStep m ≠ [] := by
  induction l with
  | nil => intro m h; exact h
  | cons p rest ih =>
    intro m h
    rw [List.foldl_cons]
    exact ih _ (specifierInsertStep_ne_nil m p h)

/-- If some specifier entry is effective, the folded map is nonempty. -/
theorem specifier_foldl_effective
    (l : List (String × ExposedUserDeviceSpecifiers)) :
    ∀ m, l.all (fun ps => ineffectiveSpecifier ps.2) = false →
      l.foldl specifierInsertStep m ≠ [] := by
  induction l with
  | nil => intro m h; simp at h
  | cons p rest ih =>
    intro m h
    rw [List.foldl_cons]
    by_cases hp : ineffectiveSpecifier p.2 = true
    · have hrest : rest.all (fun ps => ineffectiveSpecifier ps.2) = false := by
        simpa [List.all_cons, hp] using h
      rw [specifierInsertStep_ineffective m p hp]
      exact ih m hrest
    · have hne : specifierInsertStep m p ≠ [] := by
        unfold ineffectiveSpecifier at hp
        cases hw : p.2.websocket with
        | none => rw [hw] at hp; simp at hp
        | some ws =>
          rw [hw] at hp
          have hl : ws.names.length > 0 := by
            rcases Nat.eq_zero_or_pos ws.names.length with h₀ | h₁
            · exact absurd (by simp [h₀]) hp
            · exact h₁
          simpa [specifierInsertStep, hw, hl] using
            insertAssoc_ne_nil m p.1 ⟨some (intoWebsocketSpecifier ws)⟩
      exact specifier_foldl_ne_nil rest _ hne

/-- Claim C9, counterexample: on a config with one live websocket
specifier entry, the `api.rs` conversion (population loop commented out)
and the `api/simple.rs` conversion produce different
`UserConfigDefinition` values. -/
theorem conversion_files_disagree :
    intoUserConfigDefinition_api probeSpecifierConfig ≠
      intoUserConfigDefinition_simple probeSpecifierConfig := by
  decide

/-- Claim C9, amended: the two conversions always agree on the
`user_device_configs` field; the `api.rs` conversion always produces an
empty specifier map; and the two conversions produce equal results if
and only if every specifier entry is ineffective (no websocket
specifier, or an empty name list). -/
theorem conversions_agree_on_configs (c : ExposedUserConfig) :
    (intoUserConfigDefinition_api c).user_device_configs =
        (intoUserConfigDefinition_simple c).user_device_configs
    ∧ (intoUserConfigDefinition_api c).specifiers = some []
    ∧ (intoUserConfigDefinition_api c = intoUserConfigDefinition_simple c ↔
        c.specifiers.all (fun ps => ineffectiveSpecifier ps.2) = true) := by
  refine ⟨rfl, rfl, ?_, ?_⟩
  · intro heq
    by_contra hall
    have hfalse : c.specifiers.all (fun ps => ineffectiveSpecifier ps.2)
        = false := by
      revert hall
      cases c.specifiers.all (fun ps => ineffectiveSpecifier ps.2) <;> simp
    have hne := specifier_foldl_effective c.specifiers [] hfalse
    have hspec := congrArg UserConfigDefinition.specifiers heq
    simp only [intoUserConfigDefinition_api,
      intoUserConfigDefinition_simple] at hspec
    exact hne (Option.some.inj hspec).symm
  · intro h
    unfold intoUserConfigDefinition_api intoUserConfigDefinition_simple
    rw [specifier_foldl_ineffective c.specifiers [] h]

/-- Witness for `conversions_agree_on_configs`, exercising the iff in
both directions: a config whose only specifier entry has no websocket
specifier is converted equally by the two files, and conversely the
equality of the two conversions on it implies its ineffectiveness. -/
theorem conversions_agree_on_configs_witness :
    intoUserConfigDefinition_api probeIneffectiveConfig =
      intoUserConfigDefinition_simple probeIneffectiveConfig :=
  (conversions_agree_on_configs probeIneffectiveConfig).2.2.mpr (by decide)

/-! ## The orchestrator epilogue (C3) -/

theorem interleave_nil_left (l : List OrchAction) : Interleave [] l l := by
  induction l with
  | nil => exact .nil
  | cons x xs ih => exact .right ih

theorem interleave_nil_right (l : List OrchAction) : Interleave l [] l := by
  induction l with
  | nil => exact .nil
  | cons x xs ih => exact .left ih

theorem interleave_append (xs ys : List OrchAction) :
    Interleave xs ys (xs ++ ys) := by
  induction xs with
  | nil => simpa using interleave_nil_left ys
  | cons x xs ih => exact .left ih

/-- Every element of an interleaving comes from one of the two parts. -/
theorem mem_of_interleave {xs ys zs : List OrchAction}
    (h : Interleave xs ys zs) : ∀ a, a ∈ zs → a ∈ xs ∨ a ∈ ys := by
  induction h with
  | nil => intro a ha; cases ha
  | left h ih =>
    intro a ha
    rcases List.mem_cons.mp ha with rfl | hm
    · exact .inl (List.mem_cons_self _ _)
    · rcases ih a hm with h₁ | h₂
      · exact .inl (List.mem_cons_of_mem _ h₁)
      · exact .inr h₂
  | right h ih =>
    intro a ha
    rcases List.mem_cons.mp ha with rfl | hm
    · exact .inr (List.mem_cons_self _ _)
    · rcases ih a hm with h₁ | h₂
      · exact .inl h₁
      · exact .inr (List.mem_cons_of_mem _ h₂)

/-- The engine-run task never closes the sink (it only adds messages and
fires the notifier). -/
theorem sinkClose_not_mem_engineTaskTrace (outs : List String) :
    OrchAction.sinkClose ∉ engineTaskTrace outs := by
  simp [engineTaskTrace]

/-- The backdoor-relay task never closes the sink (its sink-facing
actions are all `sink.add`). -/
theorem sinkClose_not_mem_relayTaskTrace (parseMessage : String → String)
    (outcome : StartupOutcome) (surfacePresent : Bool)
    (events : List RelayEvent) :
    OrchAction.sinkClose ∉
      relayTaskTrace parseMessage outcome surfacePresent events := by
  intro h
  rw [relayTaskTrace] at h
  rcases List.mem_filterMap.mp h with ⟨a, _, ha⟩
  cases a <;> simp [orchActionOfRelayAction] at ha

/-- The stop-watcher task never closes the sink (it only calls
`engine.stop()`). -/
theorem sinkClose_not_mem_watcherTaskTrace :
    OrchAction.sinkClose ∉ watcherTaskTrace := by
  simp [watcherTaskTrace]

/-- No interleaving of the three task traces contains a sink closure. -/
theorem sinkClose_not_mem_body (parseMessage : String → String)
    (outcome : StartupOutcome) (surfacePresent : Bool)
    (events : List RelayEvent) (outs : List String)
    (body : List OrchAction)
    (h : Interleave3 (engineTaskTrace outs)
      (relayTaskTrace parseMessage outcome surfacePresent events)
      watcherTaskTrace body) :
    OrchAction.sinkClose ∉ body := by
  rcases h with ⟨mid, h₁, h₂⟩
  intro hb
  rcases mem_of_interleave h₂ _ hb with hm | hw
  · rcases mem_of_interleave h₁ _ hm with he | hr
    · exact sinkClose_not_mem_engineTaskTrace outs he
    · exact sinkClose_not_mem_relayTaskTrace parseMessage outcome
        surfacePresent events hr
  · exact sinkClose_not_mem_watcherTaskTrace hw

/-- In a list of the shape `body ++ [y, x]` where `x` occurs nowhere in
`body` and differs from `y`, any decomposition around `x` has nothing
after `x`. -/
theorem last_elem_split {α : Type} (x y : α) (hxy : x ≠ y) :
    ∀ (body l₁ l₂ : List α), x ∉ body →
      body ++ [y, x] = l₁ ++ x :: l₂ → l₂ = [] := by
  intro body
  induction body with
  | nil =>
    intro l₁ l₂ _ h
    cases l₁ with
    | nil =>
      simp at h
      exact absurd h.1.symm hxy
    | cons a l₁' =>
      cases l₁' with
      | nil =>
        simp at h
        exact h.2
      | cons b l₁'' =>
        have hlen := congrArg List.length h
        simp at hlen
  | cons a rest ih =>
    intro l₁ l₂ hnm h
    cases l₁ with
    | nil =>
      simp at h
      exact absurd (by rw [h.1]; exact List.mem_cons_self x rest) hnm
    | cons b l₁' =>
      simp at h
      exact ih l₁' l₂ (fun hmem => hnm (List.mem_cons_of_mem a hmem)) h.2

/-- Claim C3, amended for `api.rs`: for every completed run — every
interleaving `body` of the three finished task traces — the orchestrated
trace is the join body followed by the `RUN_STATUS` clear and a single
sink closure; the closure appears exactly once, only in last position
(hence strictly after the engine-run and backdoor-relay tasks stopped
producing); and `stop_engine` itself never emits a sink closure. -/
theorem sink_closed_once_after_join
    (parseMessage : String → String) (outcome : StartupOutcome)
    (surfacePresent : Bool) (events : List RelayEvent)
    (outs : List String) (body : List OrchAction)
    (h : Interleave3 (engineTaskTrace outs)
          (relayTaskTrace parseMessage outcome surfacePresent events)
          watcherTaskTrace body) :
    orchTrace_api body =
        body ++ [OrchAction.storeRunStatusFalse, OrchAction.sinkClose]
    ∧ OrchAction.sinkClose ∉ body
    ∧ (orchTrace_api body).count OrchAction.sinkClose = 1
    ∧ (∀ l₁ l₂, orchTrace_api body = l₁ ++ OrchAction.sinkClose :: l₂ →
        l₂ = [])
    ∧ (∀ graceMs s, StopAction.closeOutboundSink ∉ (stop_engine graceMs s).1) := by
  have hnb : OrchAction.sinkClose ∉ body :=
    sinkClose_not_mem_body parseMessage outcome surfacePresent events outs
      body h
  refine ⟨rfl, hnb, ?_, ?_, ?_⟩
  · rw [orchTrace_api, List.count_append, List.count_eq_zero.mpr hnb]
    decide
  · intro l₁ l₂ hsplit
    exact last_elem_split OrchAction.sinkClose OrchAction.storeRunStatusFalse
      (by simp) body l₁ l₂ hnb hsplit
  · intro graceMs s
    cases hn : s.engine_notifier <;> cases hr : s.runtime <;>
      simp [stop_engine, hn, hr]

/-- Witness for `sink_closed_once_after_join`: the run where the engine
delivers one message, the relay is cancelled before the frontend is
ready, and the three task traces run back to back. -/
theorem sink_closed_once_after_join_witness :
    (orchTrace_api (engineTaskTrace ["msg"] ++ watcherTaskTrace)).count
        OrchAction.sinkClose = 1 := by
  have h : Interleave3 (engineTaskTrace ["msg"])
      (relayTaskTrace probeParseMessage StartupOutcome.cancelledFirst true [])
      watcherTaskTrace (engineTaskTrace ["msg"] ++ watcherTaskTrace) := by
    refine ⟨engineTaskTrace ["msg"], ?_, interleave_append _ _⟩
    show Interleave (engineTaskTrace ["msg"]) [] (engineTaskTrace ["msg"])
    exact interleave_nil_right _
  exact (sink_closed_once_after_join probeParseMessage
    StartupOutcome.cancelledFirst true [] ["msg"]
    (engineTaskTrace ["msg"] ++ watcherTaskTrace) h).2.2.1

/-- Claim C3, counterexample: the `api/simple.rs` orchestrator epilogue
only clears `RUN_STATUS` — on a completed run (engine delivered one
message, relay cancelled, watcher stopped the engine) its trace contains
no sink closure at all, so the sink is not closed exactly once. -/
theorem simple_trace_never_closes_sink :
    OrchAction.sinkClose ∉
        orchTrace_simple (engineTaskTrace ["msg"] ++ watcherTaskTrace)
    ∧ (orchTrace_simple (engineTaskTrace ["msg"] ++ watcherTaskTrace)).count
        OrchAction.sinkClose = 0 := by
  decide

end IntifaceBridge
